import Mathlib

/-!
Verification of the capture-session engine of the react-native-audio-recorder
repository against its natural-language specification.

The definitions below are shallow embeddings of the platform sources:

* `AudioRec.WAVFileWriter` and its operations embed
  `android/.../PCMRecorder.kt` (class `WAVFileWriter`, byte-exact file model);
* `AudioRec.recordingLoop` embeds `PCMRecorder.recordingLoop` from the same file;
* `AudioRec.IOS.WAVFileWriter` embeds `ios/WAVFileWriter.swift` at the level of
  handle / counter state;
* `AudioRec.startRecordingStep`, `stopRecordingStep`, `cancelRecordingStep` embed
  the state checks of `AudioRecorderModule.kt` (mirrored by `AudioRecorder.swift`);
* `AudioRec.StopRace` is a small-step interleaving model of the control-thread
  `PCMRecorder.stop` against the capture-thread `recordingLoop`.

Machine integers: the Kotlin sources use 32-bit signed `Int`.  File contents are
modelled as `List Nat` of byte values; a 32-bit value serialized by
`intToByteArray` / `ByteBuffer.putInt` (little-endian) stores exactly the low 32
bits of the value, which `u32le` reproduces with explicit truncation, so the
byte-level model is exact even where the Kotlin arithmetic would wrap.
-/

namespace AudioRec

/-- Little-endian 16-bit serialization: the two bytes `ByteBuffer.putShort`
emits in LITTLE_ENDIAN order. -/
def u16le (v : Nat) : List Nat := [v % 256, v / 256 % 256]

/-- Little-endian 32-bit serialization: the four bytes emitted by
`intToByteArray` in `WAVFileWriter` (`value and 0xFF`, `value shr 8 and 0xFF`,
`value shr 16 and 0xFF`, `value shr 24 and 0xFF`) and by
`ByteBuffer.putInt` in LITTLE_ENDIAN order.  Division and remainder make the
truncation to the low 32 bits explicit. -/
def u32le (v : Nat) : List Nat :=
  [v % 256, v / 256 % 256, v / 65536 % 256, v / 16777216 % 256]

/-- Read back a little-endian unsigned 32-bit field at byte offset `pos`
of a file (how a WAV parser reads the RIFF-size and data-size fields). -/
def readU32le (file : List Nat) (pos : Nat) : Nat :=
  file.getD pos 0 + 256 * file.getD (pos + 1) 0 + 65536 * file.getD (pos + 2) 0 +
    16777216 * file.getD (pos + 3) 0

/-- Overwrite the bytes of `file` at offset `pos` with `bs`, leaving the rest
unchanged: the effect of `RandomAccessFile.seek(pos); write(bs)` in
`WAVFileWriter.updateWAVHeader`. -/
def writeBytesAt (file : List Nat) (pos : Nat) (bs : List Nat) : List Nat :=
  file.take pos ++ bs ++ file.drop (pos + bs.length)

/-- One 16-bit signed PCM sample as its two little-endian bytes
(two-complement low 16 bits), as emitted by `ByteBuffer.putShort`. -/
def sampleBytes (s : Int) : List Nat := u16le ((s % 65536).toNat)

/-- The 44-byte WAV header written by `WAVFileWriter.writeWAVHeader(dataSize)`:
"RIFF", riff size `36 + dataSize`, "WAVE", "fmt ", 16, PCM format 1, channels,
sample rate, byte rate, block align, 16 bits per sample, "data", `dataSize`. -/
def wavHeader (sampleRate channels dataSize : Nat) : List Nat :=
  [82, 73, 70, 70] ++ u32le (36 + dataSize) ++ [87, 65, 86, 69] ++
  [102, 109, 116, 32] ++ u32le 16 ++ u16le 1 ++ u16le channels ++ u32le sampleRate ++
  u32le (sampleRate * channels * 2) ++ u16le (channels * 2) ++ u16le 16 ++
  [100, 97, 116, 97] ++ u32le dataSize

/-- State of the Android `WAVFileWriter` (PCMRecorder.kt lines 162-282):
`streamOpen` models `fileOutputStream != null`, `fileExists` tracks the file
created by `file.createNewFile()`, `fileBytes` is the byte content on disk. -/
structure WAVFileWriter where
  sampleRate : Nat
  channels : Nat
  streamOpen : Bool
  totalSamplesWritten : Nat
  fileExists : Bool
  fileBytes : List Nat

/-- The `init` block of `WAVFileWriter`: create the file, open the stream and
write a placeholder header with data size 0. -/
def WAVFileWriter.create (sampleRate channels : Nat) : WAVFileWriter :=
  { sampleRate := sampleRate, channels := channels, streamOpen := true,
    totalSamplesWritten := 0, fileExists := true,
    fileBytes := wavHeader sampleRate channels 0 }

/-- `WAVFileWriter.write(samples, count)`: if the stream is null return
(silent no-op); otherwise append the first `count` samples as little-endian
bytes and add `count` to the running sample count. -/
def WAVFileWriter.write (w : WAVFileWriter) (samples : List Int) (count : Nat) :
    WAVFileWriter :=
  if w.streamOpen then
    { w with fileBytes := w.fileBytes ++ (samples.take count).flatMap sampleBytes,
             totalSamplesWritten := w.totalSamplesWritten + count }
  else w

/-- The fields of `RecordingResult` relevant to the claims (the path string is
carried by the writer and not modelled). -/
structure RecordingResult where
  durationMs : Nat
  fileSizeBytes : Nat
  sampleRate : Nat
  channels : Nat

/-- `WAVFileWriter.finalize()`: throws (`none`) when the stream is already
null; otherwise closes the stream, patches the RIFF-size field at offset 4 and
the data-size field at offset 40 with `dataSize = totalSamplesWritten * 2`,
stats the file, and computes
`durationMs = (totalSamplesWritten / (sampleRate * channels) * 1000).toInt()`.
The source computes the duration through a `Double`; it is embedded here as the
exact truncated quotient `totalSamplesWritten * 1000 / (sampleRate * channels)`,
which agrees with the `Double` computation on the inputs evaluated below. -/
def WAVFileWriter.finalize (w : WAVFileWriter) :
    Option (WAVFileWriter × RecordingResult) :=
  if w.streamOpen then
    some
      ({ w with streamOpen := false,
                fileBytes := writeBytesAt
                  (writeBytesAt w.fileBytes 4 (u32le (36 + w.totalSamplesWritten * 2)))
                  40 (u32le (w.totalSamplesWritten * 2)) },
       { durationMs := w.totalSamplesWritten * 1000 / (w.sampleRate * w.channels),
         fileSizeBytes :=
           (writeBytesAt
             (writeBytesAt w.fileBytes 4 (u32le (36 + w.totalSamplesWritten * 2)))
             40 (u32le (w.totalSamplesWritten * 2))).length,
         sampleRate := w.sampleRate, channels := w.channels })
  else none

/-- `WAVFileWriter.cancel()`: `fileOutputStream?.close(); fileOutputStream =
null; file.delete()`.  The close call can raise an IOException, which the
source does not catch: `closeFails` models that outcome.  Returns the new
writer state and whether an exception escaped to the caller.  When close
raises, the stream is not nulled and the delete line is never reached. -/
def WAVFileWriter.cancel (w : WAVFileWriter) (closeFails : Bool) :
    WAVFileWriter × Bool :=
  if w.streamOpen && closeFails then (w, true)
  else ({ w with streamOpen := false, fileExists := false }, false)

/-- `PCMRecorder.currentDuration` (PCMRecorder.kt lines 27-32): wall-clock
milliseconds since `startTimeMs`, or 0 when `startTimeMs` is not positive. -/
def currentDuration (startTimeMs nowMs : Nat) : Nat :=
  if 0 < startTimeMs then nowMs - startTimeMs else 0

/-- One pass of the `recordingLoop` body: `samples` is the content the
hardware placed in the chunk buffer, `read` the return value of
`audioRecord.read` (0 or negative on no data / error), `nowMs` the wall clock
at that moment. -/
structure Delivery where
  samples : List Int
  read : Int
  nowMs : Nat

/-- `AudioChunk` (AudioRecorderModule.kt data class): data, emission
timestamp, sequence number. -/
structure AudioChunk where
  data : List Int
  timestampMs : Nat
  sequenceNumber : Nat

/-- Mutable state of `recordingLoop`: the file writer, the `sequenceNumber`
counter, and the chunks handed to `onChunk` so far, in emission order. -/
structure LoopState where
  writer : WAVFileWriter
  sequenceNumber : Nat
  emitted : List AudioChunk

/-- The body of `recordingLoop` (PCMRecorder.kt lines 117-145) for one buffer
delivery: when `read > 0`, write the first `read` samples to the file, emit a
chunk of `buffer.copyOf(read)` stamped with `currentDuration` and the current
sequence number, then increment the sequence number; otherwise do nothing. -/
def processDelivery (startTimeMs : Nat) (st : LoopState) (d : Delivery) : LoopState :=
  if 0 < d.read then
    { writer := st.writer.write d.samples d.read.toNat,
      sequenceNumber := st.sequenceNumber + 1,
      emitted := st.emitted ++
        [{ data := d.samples.take d.read.toNat,
           timestampMs := currentDuration startTimeMs d.nowMs,
           sequenceNumber := st.sequenceNumber }] }
  else st

/-- The whole `recordingLoop`, folded over the sequence of buffer deliveries
of a session; `sequenceNumber` starts at 0 as in `PCMRecorder.start`. -/
def recordingLoop (startTimeMs : Nat) (w0 : WAVFileWriter) (ds : List Delivery) :
    LoopState :=
  ds.foldl (processDelivery startTimeMs) { writer := w0, sequenceNumber := 0, emitted := [] }

/-- The PCM bytes a sequence of deliveries appends to the file (proof-side
closed form of the write calls made by `recordingLoop`). -/
def sessionPCM (ds : List Delivery) : List Nat :=
  ds.flatMap fun d =>
    if 0 < d.read then (d.samples.take d.read.toNat).flatMap sampleBytes else []

/-- The total sample count a sequence of deliveries adds to the writer. -/
def sessionSamples (ds : List Delivery) : Nat :=
  (ds.map fun d => if 0 < d.read then d.read.toNat else 0).sum

/-- The number of chunks a sequence of deliveries emits. -/
def sessionEmitCount (ds : List Delivery) : Nat :=
  (ds.map fun d => if 0 < d.read then 1 else 0).sum

/-- The chunks a sequence of deliveries emits, starting at sequence number
`seq` (proof-side closed form of the `onChunk` calls of `recordingLoop`). -/
def sessionChunks (t seq : Nat) : List Delivery → List AudioChunk
  | [] => []
  | d :: ds =>
    if 0 < d.read then
      { data := d.samples.take d.read.toNat,
        timestampMs := currentDuration t d.nowMs,
        sequenceNumber := seq } :: sessionChunks t (seq + 1) ds
    else sessionChunks t seq ds

/-- The concrete session of the acceptance scenario: three buffer deliveries
of exactly 1024 frames each at 16 kHz mono. -/
def c9Deliveries : List Delivery :=
  [{ samples := List.replicate 1024 0, read := 1024, nowMs := 64 },
   { samples := List.replicate 1024 0, read := 1024, nowMs := 128 },
   { samples := List.replicate 1024 0, read := 1024, nowMs := 192 }]

/-- The `RecorderState` enum of AudioRecorderModule.kt (lines 407-414),
identical to the `RecorderState` enum of AudioRecorder.swift: idle, preparing,
recording, stopping, stopped, error. -/
inductive RecorderState
  | idle
  | preparing
  | recording
  | stopping
  | stopped
  | error
deriving DecidableEq

/-- The string `value` attached to each enum case in the Kotlin source (equal
to the Swift `rawValue`). -/
def RecorderState.value : RecorderState → String
  | .idle => "idle"
  | .preparing => "preparing"
  | .recording => "recording"
  | .stopping => "stopping"
  | .stopped => "stopped"
  | .error => "error"

/-- The state strings the lifecycle can report, one per enum case. -/
def recorderStateValues : List String :=
  [RecorderState.idle, RecorderState.preparing, RecorderState.recording,
   RecorderState.stopping, RecorderState.stopped, RecorderState.error].map
    RecorderState.value

/-- The methods exported on the `AudioRecorder` object of src/index.ts
(lines 165-176): the entire JS control surface of the module. -/
def audioRecorderMethods : List String :=
  ["checkPermission", "requestPermission", "startRecording", "stopRecording",
   "cancelRecording", "getState", "getDuration", "addListener",
   "removeListener", "removeAllListeners"]

/-- Result of a control call as seen by the JS promise: resolved, or rejected
with an error code. -/
inductive CallOutcome
  | resolved
  | rejected (code : String)
deriving DecidableEq

/-- `AudioRecorderModule.startRecording` (AudioRecorderModule.kt lines
98-151): reject PERMISSION_DENIED when the permission is missing; reject
INVALID_STATE unless the state is IDLE or STOPPED; otherwise pass through
PREPARING and end in RECORDING (resolved), or in ERROR (rejected
START_FAILED) when recorder construction or start throws, modelled by
`startThrows`.  The returned state is the state after the call. -/
def startRecordingStep (s : RecorderState) (permissionGranted startThrows : Bool) :
    RecorderState × CallOutcome :=
  if permissionGranted = false then (s, .rejected "PERMISSION_DENIED")
  else if s ≠ .idle ∧ s ≠ .stopped then (s, .rejected "INVALID_STATE")
  else if startThrows then (.error, .rejected "START_FAILED")
  else (.recording, .resolved)

/-- `AudioRecorderModule.stopRecording` (lines 154-183): reject INVALID_STATE
unless the state is RECORDING; otherwise pass through STOPPING and end in
STOPPED (resolved), or in ERROR (rejected STOP_FAILED) when stop throws,
modelled by `stopThrows`. -/
def stopRecordingStep (s : RecorderState) (stopThrows : Bool) :
    RecorderState × CallOutcome :=
  if s ≠ .recording then (s, .rejected "INVALID_STATE")
  else if stopThrows then (.error, .rejected "STOP_FAILED")
  else (.stopped, .resolved)

/-- `AudioRecorderModule.cancelRecording` (lines 186-190, identical in
AudioRecorder.swift lines 149-155): `pcmRecorder?.cancel();
setState(STOPPED); promise.resolve(null)` with no state check of any kind. -/
def cancelRecordingStep (s : RecorderState) : RecorderState × CallOutcome :=
  (.stopped, .resolved)

/-- The fields of the `config: ReadableMap` argument of `startRecording` that
carry numbers; `none` models a missing key (`hasKey` false). -/
structure ConfigMap where
  sampleRate : Option Int
  channels : Option Int
  chunkSize : Option Int

/-- `val sampleRate = if (config.hasKey("sampleRate")) config.getInt(...)
else 16000` (AudioRecorderModule.kt line 119; same pattern with `?? 16000` in
AudioRecorder.swift line 81). -/
def parsedSampleRate (c : ConfigMap) : Int :=
  match c.sampleRate with
  | some v => v
  | none => 16000

/-- `val channels = if (config.hasKey("channels")) config.getInt(...) else 1`
(line 120). -/
def parsedChannels (c : ConfigMap) : Int :=
  match c.channels with
  | some v => v
  | none => 1

/-- `val chunkSize = if (config.hasKey("chunkSize")) config.getInt(...) else
1024` (line 121). -/
def parsedChunkSize (c : ConfigMap) : Int :=
  match c.chunkSize with
  | some v => v
  | none => 1024

/-- The sample rates the documentation lists as supported. -/
def allowedSampleRates : List Int := [8000, 16000, 44100, 48000]

/-- The Android channel mask choice. -/
inductive ChannelMask
  | mono
  | stereo
deriving DecidableEq

/-- `val channelConfig = if (config.channels == 1) CHANNEL_IN_MONO else
CHANNEL_IN_STEREO` (PCMRecorder.kt lines 42-46): every channel count other
than 1 is treated as stereo. -/
def channelMaskOf (channels : Int) : ChannelMask :=
  if channels = 1 then .mono else .stereo

/-- The fields of the Android `PCMRecorder` relevant to duration:
`startTimeMs` plus the nullable thread and AudioRecord handles. -/
structure PCMRecorderState where
  startTimeMs : Nat
  threadRunning : Bool
  audioRecordPresent : Bool

/-- `PCMRecorder.start` sets `startTimeMs = System.currentTimeMillis()` and
spawns the thread (PCMRecorder.kt lines 78-88). -/
def PCMRecorderState.started (nowMs : Nat) : PCMRecorderState :=
  { startTimeMs := nowMs, threadRunning := true, audioRecordPresent := true }

/-- `PCMRecorder.currentDuration` evaluated at wall-clock `nowMs`. -/
def PCMRecorderState.currentDur (p : PCMRecorderState) (nowMs : Nat) : Nat :=
  currentDuration p.startTimeMs nowMs

/-- `PCMRecorder.stop` (lines 91-104): nulls `recordingThread` and
`audioRecord`; `startTimeMs` is never reset (`PCMRecorder.cancel` is the
same in this respect). -/
def PCMRecorderState.stopped (p : PCMRecorderState) : PCMRecorderState :=
  { p with threadRunning := false, audioRecordPresent := false }

/-- The module field `pcmRecorder: PCMRecorder?`. -/
structure ModuleDuration where
  pcmRecorder : Option PCMRecorderState

/-- Module before any `startRecording` call: `pcmRecorder` is null. -/
def ModuleDuration.initial : ModuleDuration := { pcmRecorder := none }

/-- `startRecording` replaces `pcmRecorder` with a freshly started recorder
(AudioRecorderModule.kt lines 134-142). -/
def ModuleDuration.afterStart (m : ModuleDuration) (nowMs : Nat) : ModuleDuration :=
  { pcmRecorder := some (PCMRecorderState.started nowMs) }

/-- `stopRecording` calls `pcmRecorder?.stop()` and keeps the reference: the
field is never nulled (lines 163-164); `cancelRecording` likewise. -/
def ModuleDuration.afterStop (m : ModuleDuration) : ModuleDuration :=
  { pcmRecorder := m.pcmRecorder.map PCMRecorderState.stopped }

/-- `AudioRecorderModule.getDuration` (lines 197-201):
`pcmRecorder?.currentDuration ?: 0`, a read of two fields with no state
mutation and no blocking. -/
def ModuleDuration.getDuration (m : ModuleDuration) (nowMs : Nat) : Nat :=
  match m.pcmRecorder with
  | none => 0
  | some p => p.currentDur nowMs

namespace IOS

/-- `PCMRecorder.currentDuration` on iOS (PCMRecorder.swift lines 20-23):
`startTime` is an `Optional Date`; nil yields 0. -/
def currentDurationIOS (startTime : Option Nat) (nowMs : Nat) : Nat :=
  match startTime with
  | none => 0
  | some t => nowMs - t

/-- `PCMRecorder.cleanup` (lines 155-160), run at the end of both `stop` and
`cancel`: sets `startTime = nil` (among other fields). -/
def cleanupStartTime (startTime : Option Nat) : Option Nat := none

/-- The `fileHandle: FileHandle?` field of the Swift writer: nil, or a handle
that is open, or a handle that has been closed but not nilled. -/
inductive HandleState
  | absent
  | openH
  | closedH
deriving DecidableEq

/-- State of the Swift `WAVFileWriter` (WAVFileWriter.swift): the handle, the
running sample count, the byte count on disk, and whether the file exists. -/
structure WAVFileWriter where
  handle : HandleState
  totalSamplesWritten : Nat
  fileByteCount : Nat
  fileExists : Bool

/-- The Swift initializer: create the file, open the handle, write the
44-byte placeholder header. -/
def WAVFileWriter.create : WAVFileWriter :=
  { handle := .openH, totalSamplesWritten := 0, fileByteCount := 44, fileExists := true }

/-- Swift `write(samples:count:)` (lines 27-34): `guard let fileHandle else
return`, then `fileHandle.write(data)`, then `totalSamplesWritten += count`.
A nil handle is a silent no-op.  A present-but-closed handle reaches the
write call on a closed descriptor: `closedRaises = true` models the
documented FileHandle behavior (an exception, so the count line is not
reached); `closedRaises = false` models a hypothetical silent write failure
(execution continues and the count still grows).  The second component
reports whether an exception was raised. -/
def WAVFileWriter.write (w : WAVFileWriter) (count : Nat) (closedRaises : Bool) :
    WAVFileWriter × Bool :=
  match w.handle with
  | .absent => (w, false)
  | .openH =>
      ({ w with totalSamplesWritten := w.totalSamplesWritten + count,
                fileByteCount := w.fileByteCount + 2 * count }, false)
  | .closedH =>
      if closedRaises then (w, true)
      else ({ w with totalSamplesWritten := w.totalSamplesWritten + count }, false)

/-- Swift `finalize()` (lines 36-67): throws when the handle is nil;
otherwise rewrites the header, closes the handle and sets it to nil.  Only
the handle transition matters to the claims settled here. -/
def WAVFileWriter.finalizeHandle (w : WAVFileWriter) : Option WAVFileWriter :=
  match w.handle with
  | .openH => some { w with handle := .absent }
  | _ => none

/-- Swift `cancel()` (lines 69-72): `try? fileHandle?.close(); try?
FileManager.default.removeItem(atPath: filePath)`.  Both errors are
suppressed (`closeFails` and `removeFails` model them), nothing is ever
raised, and crucially `fileHandle` is never set to nil: an open handle
becomes a closed-but-present handle.  The second component reports whether
an exception was raised (always `false`). -/
def WAVFileWriter.cancel (w : WAVFileWriter) (closeFails removeFails : Bool) :
    WAVFileWriter × Bool :=
  ({ w with handle := if w.handle = .openH then .closedH else w.handle,
            fileExists := if removeFails then w.fileExists else false }, false)

end IOS

namespace StopRace

/-! An interleaving model of `PCMRecorder.stop()` on the control thread
against `recordingLoop` on the capture thread (PCMRecorder.kt lines 91-104
and 117-145).  The loop runs `while (audioRecord?.recordingState ==
RECORDSTATE_RECORDING)`; `stop()` first calls `recordingThread?.join(1000)`,
then `audioRecord?.stop()` (which is what makes the loop condition false),
then `fileWriter?.finalize()`.  `join(1000)` returns either because the
thread has terminated or because the one-second bound elapsed; the model
therefore allows the join step to complete at any time. -/

/-- Program counter of the capture thread: at the loop condition, between a
successful read and the write/emit of that buffer, or terminated. -/
inductive CapLoc
  | loopHead
  | pendingWrite
  | exited
deriving DecidableEq

/-- Program counter of the control thread inside `stop()`: before the join,
after the join returned, after `audioRecord.stop()`, after finalize began. -/
inductive CtrlLoc
  | entry
  | joinDone
  | recStopped
  | finalized
deriving DecidableEq

/-- Observable events: a `fileWriter.write` call, and the start of
`fileWriter.finalize`. -/
inductive Ev
  | writeEv
  | finalizeEv
deriving DecidableEq

/-- Global state: whether the AudioRecord is still in RECORDSTATE_RECORDING,
both program counters, and the trace of observable events. -/
structure Sys where
  recActive : Bool
  cap : CapLoc
  ctrl : CtrlLoc
  trace : List Ev
deriving DecidableEq

/-- One atomic step of either thread. -/
inductive Step : Sys → Sys → Prop
  /-- Loop condition true and `audioRecord.read` returned a positive count:
  the thread is now about to write and emit this buffer. -/
  | readData (s : Sys) (h1 : s.cap = .loopHead) (h2 : s.recActive = true) :
      Step s { s with cap := .pendingWrite }
  /-- Loop condition true but the read returned no data: back to the
  condition. -/
  | readNone (s : Sys) (h1 : s.cap = .loopHead) (h2 : s.recActive = true) :
      Step s s
  /-- Loop condition false: the loop exits and the thread terminates. -/
  | exitLoop (s : Sys) (h1 : s.cap = .loopHead) (h2 : s.recActive = false) :
      Step s { s with cap := .exited }
  /-- The pending buffer is written to the file (and emitted); the thread
  returns to the loop condition. -/
  | doWrite (s : Sys) (h : s.cap = .pendingWrite) :
      Step s { s with cap := .loopHead, trace := s.trace ++ [.writeEv] }
  /-- An exception during the body: `onError` fires and the loop breaks. -/
  | errorExit (s : Sys) (h : s.cap = .pendingWrite) :
      Step s { s with cap := .exited }
  /-- `recordingThread?.join(1000)` returns: either the thread has died or
  the one-second bound elapsed, so no guard on the capture thread. -/
  | joinReturn (s : Sys) (h : s.ctrl = .entry) :
      Step s { s with ctrl := .joinDone }
  /-- `audioRecord?.stop()`: the recording state leaves
  RECORDSTATE_RECORDING. -/
  | stopRec (s : Sys) (h : s.ctrl = .joinDone) :
      Step s { s with ctrl := .recStopped, recActive := false }
  /-- `fileWriter?.finalize()` begins. -/
  | finalizeBegin (s : Sys) (h : s.ctrl = .recStopped) :
      Step s { s with ctrl := .finalized, trace := s.trace ++ [.finalizeEv] }

/-- The state at the moment `stop()` is entered: the loop is running. -/
def init : Sys :=
  { recActive := true, cap := .loopHead, ctrl := .entry, trace := [] }

/-- States reachable from `init` by interleaved execution. -/
inductive Reaches : Sys → Prop
  | refl : Reaches init
  | tail (s s' : Sys) (h : Reaches s) (hs : Step s s') : Reaches s'

/-- Whether a write event occurs strictly after the finalize event in a
trace. -/
def writeAfterFinalize (tr : List Ev) : Bool :=
  ((tr.dropWhile (fun e => e ≠ .finalizeEv)).drop 1).contains .writeEv

end StopRace

/-- The loop invariant behind the sequence-number claim: the emitted chunks
are numbered `0, 1, ...` and the counter equals the number emitted. -/
lemma emitted_seq (t : Nat) (ds : List Delivery) (st : LoopState)
    (h1 : st.sequenceNumber = st.emitted.length)
    (h2 : st.emitted.map (fun c => c.sequenceNumber) = List.range st.emitted.length) :
    (ds.foldl (processDelivery t) st).sequenceNumber =
      (ds.foldl (processDelivery t) st).emitted.length ∧
    (ds.foldl (processDelivery t) st).emitted.map (fun c => c.sequenceNumber) =
      List.range (ds.foldl (processDelivery t) st).emitted.length := by
  induction ds generalizing st with
  | nil => exact ⟨h1, h2⟩
  | cons d ds ih =>
    simp only [List.foldl_cons]
    apply ih
    · unfold processDelivery
      split
      · simp [h1]
      · exact h1
    · unfold processDelivery
      split
      · simp [List.map_append, h2, h1, List.range_succ]
      · exact h2

/-- C2: for every recording session (any start time, any initial writer, any
sequence of buffer deliveries), the sequence numbers of the emitted chunks, in
emission order, are exactly `0, 1, ..., N-1` where `N` is the number of chunks
emitted: the first is 0, each subsequent one is one greater than the previous,
and none repeats. -/
theorem C2_sequence_numbers (t : Nat) (w0 : WAVFileWriter) (ds : List Delivery) :
    (recordingLoop t w0 ds).emitted.map (fun c => c.sequenceNumber) =
      List.range (recordingLoop t w0 ds).emitted.length :=
  (emitted_seq t ds { writer := w0, sequenceNumber := 0, emitted := [] } rfl rfl).2


/-- The flattened byte list of the header (the same 44 bytes with the
serialization helpers unfolded); used to keep the definitional reductions in
the header lemmas inexpensive. -/
lemma wavHeader_flat (sr ch ds : Nat) :
    wavHeader sr ch ds =
      82 :: 73 :: 70 :: 70 ::
      (36 + ds) % 256 :: (36 + ds) / 256 % 256 :: (36 + ds) / 65536 % 256 ::
      (36 + ds) / 16777216 % 256 ::
      87 :: 65 :: 86 :: 69 ::
      102 :: 109 :: 116 :: 32 ::
      16 % 256 :: 16 / 256 % 256 :: 16 / 65536 % 256 :: 16 / 16777216 % 256 ::
      1 % 256 :: 1 / 256 % 256 ::
      ch % 256 :: ch / 256 % 256 ::
      sr % 256 :: sr / 256 % 256 :: sr / 65536 % 256 :: sr / 16777216 % 256 ::
      (sr * ch * 2) % 256 :: (sr * ch * 2) / 256 % 256 ::
      (sr * ch * 2) / 65536 % 256 :: (sr * ch * 2) / 16777216 % 256 ::
      (ch * 2) % 256 :: (ch * 2) / 256 % 256 ::
      16 % 256 :: 16 / 256 % 256 ::
      100 :: 97 :: 116 :: 97 ::
      ds % 256 :: ds / 256 % 256 :: ds / 65536 % 256 :: ds / 16777216 % 256 :: [] := rfl

/-- Serializing a list of 16-bit samples produces two bytes per sample. -/
lemma length_flatMap_sampleBytes (l : List Int) :
    (l.flatMap sampleBytes).length = 2 * l.length := by
  induction l with
  | nil => rfl
  | cons s l ih => simp [sampleBytes, u16le, ih]; omega

/-- The header written with a placeholder data size, once patched at offsets 4
and 40 by `updateWAVHeader(dataSize)`, is byte-for-byte the header that would
have been written with the true data size; the PCM bytes that follow are
untouched. -/
lemma patch_placeholder_header (sr ch ds : Nat) (data : List Nat) :
    writeBytesAt (writeBytesAt (wavHeader sr ch 0 ++ data) 4 (u32le (36 + ds)))
      40 (u32le ds) = wavHeader sr ch ds ++ data := by
  rw [wavHeader_flat, wavHeader_flat]; rfl

lemma wavHeader_length (sr ch ds : Nat) : (wavHeader sr ch ds).length = 44 := by
  rw [wavHeader_flat]; rfl

/-- Reading the RIFF chunk-size field (offset 4) of a finalized file yields
the stored riff size, truncated to 32 bits. -/
lemma readU32le_riff (sr ch ds : Nat) (data : List Nat) :
    readU32le (wavHeader sr ch ds ++ data) 4 = (36 + ds) % 4294967296 := by
  have h : readU32le (wavHeader sr ch ds ++ data) 4 =
      (36 + ds) % 256 + 256 * ((36 + ds) / 256 % 256) +
        65536 * ((36 + ds) / 65536 % 256) +
        16777216 * ((36 + ds) / 16777216 % 256) := by
    rw [wavHeader_flat]; rfl
  rw [h]; omega

/-- Reading the data chunk-size field (offset 40) of a finalized file yields
the stored data size, truncated to 32 bits. -/
lemma readU32le_dataSize (sr ch ds : Nat) (data : List Nat) :
    readU32le (wavHeader sr ch ds ++ data) 40 = ds % 4294967296 := by
  have h : readU32le (wavHeader sr ch ds ++ data) 40 =
      ds % 256 + 256 * (ds / 256 % 256) + 65536 * (ds / 65536 % 256) +
        16777216 * (ds / 16777216 % 256) := by
    rw [wavHeader_flat]; rfl
  rw [h]; omega

/-- Processing one delivery never closes the writer stream. -/
lemma processDelivery_streamOpen (t : Nat) (st : LoopState) (d : Delivery)
    (h : st.writer.streamOpen = true) :
    (processDelivery t st d).writer.streamOpen = true := by
  unfold processDelivery
  split
  · unfold WAVFileWriter.write
    rw [if_pos h]
    exact h
  · exact h

/-- Closed form of the recording loop fold: starting from any state whose
stream is open, the loop appends exactly the session PCM bytes to the file,
adds the session sample count to the running counter, advances the sequence
counter by the number of emitted chunks, and appends the session chunks. -/
lemma foldl_processDelivery (t : Nat) (ds : List Delivery) (st : LoopState)
    (hopen : st.writer.streamOpen = true) :
    ds.foldl (processDelivery t) st =
      { writer := { st.writer with
          fileBytes := st.writer.fileBytes ++ sessionPCM ds,
          totalSamplesWritten := st.writer.totalSamplesWritten + sessionSamples ds },
        sequenceNumber := st.sequenceNumber + sessionEmitCount ds,
        emitted := st.emitted ++ sessionChunks t st.sequenceNumber ds } := by
  induction ds generalizing st with
  | nil =>
    simp [sessionPCM, sessionSamples, sessionEmitCount, sessionChunks]
  | cons d ds ih =>
    simp only [List.foldl_cons]
    rw [ih (processDelivery t st d) (processDelivery_streamOpen t st d hopen)]
    by_cases hr : 0 < d.read
    · simp [processDelivery, WAVFileWriter.write, hopen, hr, sessionPCM, sessionSamples,
        sessionEmitCount, sessionChunks, List.append_assoc, Nat.add_assoc]
    · simp [processDelivery, hr, sessionPCM, sessionSamples, sessionEmitCount,
        sessionChunks]

/-- Under the `audioRecord.read` contract (the returned count never exceeds
the buffer length), the appended PCM bytes are two per written sample. -/
lemma length_sessionPCM (ds : List Delivery)
    (hds : ∀ d ∈ ds, d.read.toNat ≤ d.samples.length) :
    (sessionPCM ds).length = 2 * sessionSamples ds := by
  induction ds with
  | nil => rfl
  | cons d ds ih =>
    have hd := hds d (List.mem_cons_self d ds)
    have ih' := ih fun d' h => hds d' (List.mem_cons_of_mem d h)
    simp only [sessionPCM, sessionSamples, List.flatMap_cons, List.length_append,
      List.map_cons, List.sum_cons] at ih' ⊢
    by_cases hr : 0 < d.read
    · rw [if_pos hr, if_pos hr, length_flatMap_sampleBytes, List.length_take,
        Nat.min_eq_left hd]
      omega
    · rw [if_neg hr, if_neg hr]
      simp only [List.length_nil]
      omega

/-- Under the `audioRecord.read` contract, the sum of the sample counts of the
emitted chunks equals the sample count added to the writer. -/
lemma sum_sessionChunks (t : Nat) (ds : List Delivery)
    (hds : ∀ d ∈ ds, d.read.toNat ≤ d.samples.length) (seq : Nat) :
    ((sessionChunks t seq ds).map (fun c => c.data.length)).sum = sessionSamples ds := by
  induction ds generalizing seq with
  | nil => rfl
  | cons d ds ih =>
    have hd := hds d (List.mem_cons_self d ds)
    have ih' := ih fun d' h => hds d' (List.mem_cons_of_mem d h)
    by_cases hr : 0 < d.read
    · simp [sessionChunks, sessionSamples, hr, List.length_take,
        Nat.min_eq_left hd, ih']
    · simp [sessionChunks, sessionSamples, hr, ih']

/-- C1: for every recording session (any sample rate, channel count, start
time and sequence of buffer deliveries, with each read count bounded by the
buffer length as `audioRecord.read` guarantees), provided the data does not
overflow the 32-bit header fields, finalize succeeds and: the data-size field
of the file equals twice the sum of the sample counts of all emitted chunks
(the total number of samples written); the RIFF chunk-size field equals 36
plus the data size; and the data size equals the final file size in bytes
minus 44, where that file size is the one the result reports. -/
theorem C1_wav_header_fields (sr ch t : Nat) (ds : List Delivery)
    (hds : ∀ d ∈ ds, d.read.toNat ≤ d.samples.length)
    (hov : 36 + 2 * (((recordingLoop t (WAVFileWriter.create sr ch) ds).emitted.map
      (fun c => c.data.length)).sum) < 4294967296) :
    ∃ w' res,
      (recordingLoop t (WAVFileWriter.create sr ch) ds).writer.finalize = some (w', res) ∧
      readU32le w'.fileBytes 40 =
        2 * (((recordingLoop t (WAVFileWriter.create sr ch) ds).emitted.map
          (fun c => c.data.length)).sum) ∧
      readU32le w'.fileBytes 4 = 36 + readU32le w'.fileBytes 40 ∧
      readU32le w'.fileBytes 40 = w'.fileBytes.length - 44 ∧
      res.fileSizeBytes = w'.fileBytes.length := by
  have hloop := foldl_processDelivery t ds
    { writer := WAVFileWriter.create sr ch, sequenceNumber := 0, emitted := [] } rfl
  have hemit : (recordingLoop t (WAVFileWriter.create sr ch) ds).emitted =
      sessionChunks t 0 ds := by
    rw [recordingLoop, hloop]
    simp
  have hwriter : (recordingLoop t (WAVFileWriter.create sr ch) ds).writer =
      { sampleRate := sr, channels := ch, streamOpen := true,
        totalSamplesWritten := sessionSamples ds, fileExists := true,
        fileBytes := wavHeader sr ch 0 ++ sessionPCM ds } := by
    rw [recordingLoop, hloop]
    simp [WAVFileWriter.create]
  have hsum : ((recordingLoop t (WAVFileWriter.create sr ch) ds).emitted.map
      (fun c => c.data.length)).sum = sessionSamples ds := by
    rw [hemit]
    exact sum_sessionChunks t ds hds 0
  rw [hsum] at hov ⊢
  rw [hwriter]
  have hpatch := patch_placeholder_header sr ch (sessionSamples ds * 2) (sessionPCM ds)
  refine ⟨{ sampleRate := sr, channels := ch, streamOpen := false,
            totalSamplesWritten := sessionSamples ds, fileExists := true,
            fileBytes := wavHeader sr ch (sessionSamples ds * 2) ++ sessionPCM ds },
          { durationMs := sessionSamples ds * 1000 / (sr * ch),
            fileSizeBytes := (wavHeader sr ch (sessionSamples ds * 2) ++ sessionPCM ds).length,
            sampleRate := sr, channels := ch }, ?_, ?_, ?_, ?_, rfl⟩
  · simp only [WAVFileWriter.finalize, hpatch]
    simp
  · show readU32le (wavHeader sr ch (sessionSamples ds * 2) ++ sessionPCM ds) 40 = _
    rw [readU32le_dataSize]
    omega
  · show readU32le (wavHeader sr ch (sessionSamples ds * 2) ++ sessionPCM ds) 4 =
      36 + readU32le (wavHeader sr ch (sessionSamples ds * 2) ++ sessionPCM ds) 40
    rw [readU32le_dataSize, readU32le_riff]
    omega
  · show readU32le (wavHeader sr ch (sessionSamples ds * 2) ++ sessionPCM ds) 40 =
      (wavHeader sr ch (sessionSamples ds * 2) ++ sessionPCM ds).length - 44
    rw [readU32le_dataSize, List.length_append, wavHeader_length,
      length_sessionPCM ds hds]
    omega

/-- Witness for `C1_wav_header_fields`: a concrete two-delivery session (the
second reporting no data) satisfying every hypothesis. -/
theorem C1_wav_header_fields_witness :
    ∃ w' res,
      (recordingLoop 7 (WAVFileWriter.create 16000 1)
        [⟨[5, -3, 700], 3, 12⟩, ⟨[5, -3, 700], 0, 20⟩]).writer.finalize = some (w', res) ∧
      readU32le w'.fileBytes 40 =
        2 * (((recordingLoop 7 (WAVFileWriter.create 16000 1)
          [⟨[5, -3, 700], 3, 12⟩, ⟨[5, -3, 700], 0, 20⟩]).emitted.map
          (fun c => c.data.length)).sum) ∧
      readU32le w'.fileBytes 4 = 36 + readU32le w'.fileBytes 40 ∧
      readU32le w'.fileBytes 40 = w'.fileBytes.length - 44 ∧
      res.fileSizeBytes = w'.fileBytes.length :=
  C1_wav_header_fields 16000 1 7 [⟨[5, -3, 700], 3, 12⟩, ⟨[5, -3, 700], 0, 20⟩]
    (by decide) (by decide)


/-- C3 counterexample: the control surface exports no pause or resume
operation, and the lifecycle state machine has no paused state, so the
claimed `pause`/`resume` transitions do not exist in the code. -/
theorem C3_counterexample :
    "pauseRecording" ∉ audioRecorderMethods ∧
    "resumeRecording" ∉ audioRecorderMethods ∧
    "paused" ∉ recorderStateValues := by decide

/-- C3 (amended): the implementation provides no pause/resume.  The control
surface exports exactly the ten methods of the `AudioRecorder` object (start,
stop, cancel, the two permission helpers, the two getters and the three
listener helpers), and the lifecycle states are exactly idle, preparing,
recording, stopping, stopped and error - no `Paused` state exists, so no
chunk-suppression-while-paused behaviour exists either. -/
theorem C3_no_pause_resume :
    recorderStateValues =
      ["idle", "preparing", "recording", "stopping", "stopped", "error"] ∧
    audioRecorderMethods =
      ["checkPermission", "requestPermission", "startRecording", "stopRecording",
       "cancelRecording", "getState", "getDuration", "addListener",
       "removeListener", "removeAllListeners"] ∧
    "pauseRecording" ∉ audioRecorderMethods ∧
    "resumeRecording" ∉ audioRecorderMethods ∧
    "paused" ∉ recorderStateValues := by decide

/-- C4 counterexample: values present in the config are used as given, with
no validation: a sample rate of 12345 (not an allowed rate) is parsed as
12345, not as the default 16000; a channel count of 5 is parsed as 5 (and
mapped to the stereo mask), not as 1; a chunk size of -7 is parsed as -7,
not as 1024. -/
theorem C4_counterexample :
    parsedSampleRate { sampleRate := some 12345, channels := none, chunkSize := none } =
      12345 ∧
    parsedSampleRate { sampleRate := some 12345, channels := none, chunkSize := none } ≠
      16000 ∧
    (12345 : Int) ∉ allowedSampleRates ∧
    parsedChannels { sampleRate := none, channels := some 5, chunkSize := none } = 5 ∧
    parsedChannels { sampleRate := none, channels := some 5, chunkSize := none } ≠ 1 ∧
    channelMaskOf 5 = ChannelMask.stereo ∧
    parsedChunkSize { sampleRate := none, channels := none, chunkSize := some (-7) } =
      -7 ∧
    parsedChunkSize { sampleRate := none, channels := none, chunkSize := some (-7) } ≠
      1024 := by decide

/-- C4 (amended): the defaults 16000 / 1 / 1024 are applied only when the
corresponding key is absent from the config map; a present value is used
exactly as given, with no validation against the allowed sets, and on
Android every channel count other than 1 selects the stereo input mask. -/
theorem C4_defaults_only_when_missing :
    (∀ (c : ConfigMap) (v : Int), c.sampleRate = some v → parsedSampleRate c = v) ∧
    (∀ c : ConfigMap, c.sampleRate = none → parsedSampleRate c = 16000) ∧
    (∀ (c : ConfigMap) (v : Int), c.channels = some v → parsedChannels c = v) ∧
    (∀ c : ConfigMap, c.channels = none → parsedChannels c = 1) ∧
    (∀ (c : ConfigMap) (v : Int), c.chunkSize = some v → parsedChunkSize c = v) ∧
    (∀ c : ConfigMap, c.chunkSize = none → parsedChunkSize c = 1024) ∧
    (∀ v : Int, v ≠ 1 → channelMaskOf v = ChannelMask.stereo) := by
  refine ⟨fun c v h => ?_, fun c h => ?_, fun c v h => ?_, fun c h => ?_,
    fun c v h => ?_, fun c h => ?_, fun v h => ?_⟩ <;>
    simp [parsedSampleRate, parsedChannels, parsedChunkSize, channelMaskOf, h]

/-- Witness for `C4_defaults_only_when_missing` at concrete configs. -/
theorem C4_defaults_only_when_missing_witness :
    parsedSampleRate { sampleRate := some 22050, channels := none, chunkSize := none } =
      22050 ∧
    parsedSampleRate { sampleRate := none, channels := none, chunkSize := none } =
      16000 ∧
    channelMaskOf 5 = ChannelMask.stereo :=
  ⟨C4_defaults_only_when_missing.1 _ _ rfl,
   C4_defaults_only_when_missing.2.1 _ rfl,
   C4_defaults_only_when_missing.2.2.2.2.2.2 5 (by decide)⟩

/-- C5 counterexample: `cancelRecording` called in Idle is not rejected: it
resolves and moves the state to Stopped, instead of rejecting with
INVALID_STATE and leaving the state Idle as the claim requires. -/
theorem C5_counterexample :
    cancelRecordingStep RecorderState.idle =
      (RecorderState.stopped, CallOutcome.resolved) ∧
    cancelRecordingStep RecorderState.idle ≠
      (RecorderState.idle, CallOutcome.rejected "INVALID_STATE") := by decide

/-- C5 (amended): `start` and `stop` validate the state and reject with
INVALID_STATE leaving the state unchanged when called from a state with no
defined transition - in particular `stop` in Idle rejects and the state stays
Idle - but `cancel` performs no state validation at all: from every state,
including Idle, it resolves and sets the state to Stopped. -/
theorem C5_invalid_state_rejection :
    (∀ (s : RecorderState) (b : Bool), s ≠ RecorderState.recording →
      stopRecordingStep s b = (s, CallOutcome.rejected "INVALID_STATE")) ∧
    (∀ (s : RecorderState) (b : Bool),
      s ≠ RecorderState.idle → s ≠ RecorderState.stopped →
      startRecordingStep s true b = (s, CallOutcome.rejected "INVALID_STATE")) ∧
    (∀ s : RecorderState,
      cancelRecordingStep s = (RecorderState.stopped, CallOutcome.resolved)) := by
  refine ⟨fun s b h => ?_, fun s b h1 h2 => ?_, fun s => rfl⟩
  · simp [stopRecordingStep, h]
  · simp [startRecordingStep, h1, h2]

/-- Witness for `C5_invalid_state_rejection`: stop rejected in Idle leaving
Idle, start rejected while Recording, cancel resolving from Error. -/
theorem C5_invalid_state_rejection_witness :
    stopRecordingStep RecorderState.idle false =
      (RecorderState.idle, CallOutcome.rejected "INVALID_STATE") ∧
    startRecordingStep RecorderState.recording true false =
      (RecorderState.recording, CallOutcome.rejected "INVALID_STATE") ∧
    cancelRecordingStep RecorderState.error =
      (RecorderState.stopped, CallOutcome.resolved) :=
  ⟨C5_invalid_state_rejection.1 _ false (by decide),
   C5_invalid_state_rejection.2.1 _ false (by decide) (by decide),
   C5_invalid_state_rejection.2.2 _⟩

/-- C6 counterexample: an execution of `stop()` interleaved with the capture
loop in which a file write happens after finalize has begun.  The capture
thread reads a buffer; `join(1000)` returns by timeout (the loop is still in
RECORDSTATE_RECORDING, since `audioRecord.stop()` runs only after the join);
the control thread stops the recorder and begins finalize; the capture
thread then performs the pending write. -/
theorem C6_counterexample :
    StopRace.Reaches
      { recActive := false, cap := StopRace.CapLoc.loopHead,
        ctrl := StopRace.CtrlLoc.finalized,
        trace := [StopRace.Ev.finalizeEv, StopRace.Ev.writeEv] } ∧
    StopRace.writeAfterFinalize [StopRace.Ev.finalizeEv, StopRace.Ev.writeEv] = true := by
  constructor
  · have h1 : StopRace.Reaches
        { recActive := true, cap := StopRace.CapLoc.pendingWrite,
          ctrl := StopRace.CtrlLoc.entry, trace := [] } :=
      StopRace.Reaches.tail _ _ StopRace.Reaches.refl
        (StopRace.Step.readData StopRace.init rfl rfl)
    have h2 : StopRace.Reaches
        { recActive := true, cap := StopRace.CapLoc.pendingWrite,
          ctrl := StopRace.CtrlLoc.joinDone, trace := [] } :=
      StopRace.Reaches.tail _ _ h1
        (StopRace.Step.joinReturn
          { recActive := true, cap := StopRace.CapLoc.pendingWrite,
            ctrl := StopRace.CtrlLoc.entry, trace := [] } rfl)
    have h3 : StopRace.Reaches
        { recActive := false, cap := StopRace.CapLoc.pendingWrite,
          ctrl := StopRace.CtrlLoc.recStopped, trace := [] } :=
      StopRace.Reaches.tail _ _ h2
        (StopRace.Step.stopRec
          { recActive := true, cap := StopRace.CapLoc.pendingWrite,
            ctrl := StopRace.CtrlLoc.joinDone, trace := [] } rfl)
    have h4 : StopRace.Reaches
        { recActive := false, cap := StopRace.CapLoc.pendingWrite,
          ctrl := StopRace.CtrlLoc.finalized, trace := [StopRace.Ev.finalizeEv] } :=
      StopRace.Reaches.tail _ _ h3
        (StopRace.Step.finalizeBegin
          { recActive := false, cap := StopRace.CapLoc.pendingWrite,
            ctrl := StopRace.CtrlLoc.recStopped, trace := [] } rfl)
    exact StopRace.Reaches.tail _ _ h4
      (StopRace.Step.doWrite
        { recActive := false, cap := StopRace.CapLoc.pendingWrite,
          ctrl := StopRace.CtrlLoc.finalized, trace := [StopRace.Ev.finalizeEv] } rfl)
  · decide

/-- C6 (amended): the join with its one-second bound does not guarantee the
capture thread has ceased (the loop exit condition is only falsified by
`audioRecord.stop()`, which runs after the join), so a write after finalize
is possible; what does hold is that once the capture thread has exited its
loop, no later step of any execution adds a write event - in particular, in
executions where the thread terminated before finalize began, no write
follows finalize. -/
theorem C6_no_write_after_thread_exit (s s' : StopRace.Sys)
    (hcap : s.cap = StopRace.CapLoc.exited)
    (hsteps : Relation.ReflTransGen StopRace.Step s s') :
    s'.cap = StopRace.CapLoc.exited ∧
    ∃ ext : List StopRace.Ev,
      s'.trace = s.trace ++ ext ∧ StopRace.Ev.writeEv ∉ ext := by
  induction hsteps with
  | refl => exact ⟨hcap, [], by simp, by simp⟩
  | tail hab hbc ih =>
    obtain ⟨hbcap, ext, htr, hw⟩ := ih
    cases hbc with
    | readData h1 h2 => simp [hbcap] at h1
    | readNone h1 h2 => simp [hbcap] at h1
    | exitLoop h1 h2 => simp [hbcap] at h1
    | doWrite h => simp [hbcap] at h
    | errorExit h => simp [hbcap] at h
    | joinReturn h => exact ⟨hbcap, ext, htr, hw⟩
    | stopRec h => exact ⟨hbcap, ext, htr, hw⟩
    | finalizeBegin h =>
      refine ⟨hbcap, ext ++ [StopRace.Ev.finalizeEv], ?_, ?_⟩
      · show _ ++ [StopRace.Ev.finalizeEv] = _
        rw [htr, List.append_assoc]
      · simp [hw]

/-- Witness for `C6_no_write_after_thread_exit`: from a state whose capture
thread has exited, one finalize step adds no write event. -/
theorem C6_no_write_after_thread_exit_witness :
    ({ recActive := false, cap := StopRace.CapLoc.exited,
       ctrl := StopRace.CtrlLoc.finalized,
       trace := [StopRace.Ev.finalizeEv] } : StopRace.Sys).cap =
      StopRace.CapLoc.exited ∧
    ∃ ext : List StopRace.Ev,
      ({ recActive := false, cap := StopRace.CapLoc.exited,
         ctrl := StopRace.CtrlLoc.finalized,
         trace := [StopRace.Ev.finalizeEv] } : StopRace.Sys).trace =
        ({ recActive := false, cap := StopRace.CapLoc.exited,
           ctrl := StopRace.CtrlLoc.recStopped, trace := [] } : StopRace.Sys).trace ++
          ext ∧
      StopRace.Ev.writeEv ∉ ext :=
  C6_no_write_after_thread_exit
    { recActive := false, cap := StopRace.CapLoc.exited,
      ctrl := StopRace.CtrlLoc.recStopped, trace := [] }
    { recActive := false, cap := StopRace.CapLoc.exited,
      ctrl := StopRace.CtrlLoc.finalized, trace := [StopRace.Ev.finalizeEv] }
    rfl
    (Relation.ReflTransGen.single
      (StopRace.Step.finalizeBegin
        { recActive := false, cap := StopRace.CapLoc.exited,
          ctrl := StopRace.CtrlLoc.recStopped, trace := [] } rfl))

/-- C7 counterexample: on Android, when `close()` raises, `cancel()`
propagates the exception to its caller, the stream is not released and the
file is not deleted - contradicting "suppresses I/O errors, deletes the
file, never raises". -/
theorem C7_counterexample :
    (((WAVFileWriter.create 16000 1).write [1, -2] 2).cancel true).2 = true ∧
    (((WAVFileWriter.create 16000 1).write [1, -2] 2).cancel true).1.fileExists = true ∧
    (((WAVFileWriter.create 16000 1).write [1, -2] 2).cancel true).1.streamOpen = true := by
  decide

/-- C7 (amended): on iOS, `cancel()` suppresses both the close and the
delete error and never raises; on Android, `cancel()` deletes the file and
returns normally whenever `close()` does not raise (including when the
stream is already closed), but an exception from `close()` propagates to the
caller and skips the delete. -/
theorem C7_cancel_best_effort :
    (∀ (w : WAVFileWriter) (closeFails : Bool),
      ¬(w.streamOpen = true ∧ closeFails = true) →
      w.cancel closeFails =
        ({ w with streamOpen := false, fileExists := false }, false)) ∧
    (∀ (w : IOS.WAVFileWriter) (closeFails removeFails : Bool),
      (w.cancel closeFails removeFails).2 = false) := by
  constructor
  · intro w cf h
    have hb : (w.streamOpen && cf) ≠ true := by
      intro hc
      rw [Bool.and_eq_true] at hc
      exact h hc
    unfold WAVFileWriter.cancel
    rw [if_neg hb]
  · intro w cf rf
    rfl

/-- Witness for `C7_cancel_best_effort` at concrete writers. -/
theorem C7_cancel_best_effort_witness :
    (WAVFileWriter.create 8000 2).cancel false =
      ({ WAVFileWriter.create 8000 2 with streamOpen := false, fileExists := false },
        false) ∧
    ((IOS.WAVFileWriter.create).cancel true true).2 = false :=
  ⟨C7_cancel_best_effort.1 _ false (by simp),
   C7_cancel_best_effort.2 _ true true⟩

/-- C8 counterexample: on Android, after a session is stopped (the module
keeps its `pcmRecorder` and `startTimeMs` is never reset), `getDuration`
keeps returning the wall-clock time elapsed since the last start instead of
the claimed 0 after full teardown. -/
theorem C8_counterexample :
    ((ModuleDuration.initial.afterStart 1000).afterStop).getDuration 5000 = 4000 ∧
    ((ModuleDuration.initial.afterStart 1000).afterStop).getDuration 5000 ≠ 0 := by
  decide

/-- C8 (amended): `getDuration` is a pure read (no state change, no
blocking) callable in every state; it returns 0 before any session has
started; during a session it returns the wall-clock milliseconds since
start; after stop on Android it still returns the elapsed time since the
last start (the start time is never cleared), whereas the iOS recorder
clears its start time in `cleanup`, after which its duration is 0. -/
theorem C8_duration_behaviour :
    (∀ nowMs : Nat, ModuleDuration.initial.getDuration nowMs = 0) ∧
    (∀ (m : ModuleDuration) (t nowMs : Nat), 0 < t →
      (m.afterStart t).getDuration nowMs = nowMs - t) ∧
    (∀ (m : ModuleDuration) (t nowMs : Nat), 0 < t →
      ((m.afterStart t).afterStop).getDuration nowMs = nowMs - t) ∧
    (∀ (st : Option Nat) (nowMs : Nat),
      IOS.currentDurationIOS (IOS.cleanupStartTime st) nowMs = 0) := by
  refine ⟨fun n => rfl, fun m t n ht => ?_, fun m t n ht => ?_, fun st n => rfl⟩
  · simp [ModuleDuration.afterStart, ModuleDuration.getDuration,
      PCMRecorderState.started, PCMRecorderState.currentDur, currentDuration, ht]
  · simp [ModuleDuration.afterStart, ModuleDuration.afterStop,
      ModuleDuration.getDuration, PCMRecorderState.started, PCMRecorderState.stopped,
      PCMRecorderState.currentDur, currentDuration, ht]

/-- Witness for `C8_duration_behaviour` at concrete times. -/
theorem C8_duration_behaviour_witness :
    ModuleDuration.initial.getDuration 99 = 0 ∧
    ((ModuleDuration.initial.afterStart 50).afterStop).getDuration 80 = 30 ∧
    IOS.currentDurationIOS (IOS.cleanupStartTime (some 7)) 400 = 0 :=
  ⟨C8_duration_behaviour.1 99,
   C8_duration_behaviour.2.2.1 ModuleDuration.initial 50 80 (by decide),
   C8_duration_behaviour.2.2.2 (some 7) 400⟩

/-- C9: the acceptance scenario - 16 kHz mono, chunk size 1024, three
deliveries of exactly 1024 frames, then stop - produces a result with
`fileSizeBytes = 44 + 3 * 1024 * 2 = 6188` and `durationMs = 192`
(3 * 1024 / 16000 * 1000 truncated to an integer; the Double computation of
the source is exact at these values). -/
theorem C9_three_chunk_scenario :
    ∃ w' res,
      (recordingLoop 1 (WAVFileWriter.create 16000 1) c9Deliveries).writer.finalize =
        some (w', res) ∧
      res.fileSizeBytes = 6188 ∧ res.durationMs = 192 := by
  have hsamp : sessionSamples c9Deliveries = 3072 := by decide
  have hds : ∀ d ∈ c9Deliveries, d.read.toNat ≤ d.samples.length := by
    intro d hd
    simp only [c9Deliveries, List.mem_cons, List.not_mem_nil, or_false] at hd
    rcases hd with h | h | h
    all_goals
      subst h
      show (1024 : Int).toNat ≤ (List.replicate 1024 (0 : Int)).length
      rw [List.length_replicate]
      decide
  have hloop := foldl_processDelivery 1 c9Deliveries
    { writer := WAVFileWriter.create 16000 1, sequenceNumber := 0, emitted := [] } rfl
  have hwriter : (recordingLoop 1 (WAVFileWriter.create 16000 1) c9Deliveries).writer =
      { sampleRate := 16000, channels := 1, streamOpen := true,
        totalSamplesWritten := sessionSamples c9Deliveries, fileExists := true,
        fileBytes := wavHeader 16000 1 0 ++ sessionPCM c9Deliveries } := by
    rw [recordingLoop, hloop]
    simp [WAVFileWriter.create]
  rw [hwriter]
  have hpatch := patch_placeholder_header 16000 1 (sessionSamples c9Deliveries * 2)
    (sessionPCM c9Deliveries)
  refine ⟨{ sampleRate := 16000, channels := 1, streamOpen := false,
            totalSamplesWritten := sessionSamples c9Deliveries, fileExists := true,
            fileBytes := wavHeader 16000 1 (sessionSamples c9Deliveries * 2) ++
              sessionPCM c9Deliveries },
          { durationMs := sessionSamples c9Deliveries * 1000 / (16000 * 1),
            fileSizeBytes := (wavHeader 16000 1 (sessionSamples c9Deliveries * 2) ++
              sessionPCM c9Deliveries).length,
            sampleRate := 16000, channels := 1 }, ?_, ?_, ?_⟩
  · simp only [WAVFileWriter.finalize, hpatch]
    simp
  · show (wavHeader 16000 1 (sessionSamples c9Deliveries * 2) ++
      sessionPCM c9Deliveries).length = 6188
    rw [List.length_append, wavHeader_length, length_sessionPCM c9Deliveries hds, hsamp]
  · show sessionSamples c9Deliveries * 1000 / (16000 * 1) = 192
    rw [hsamp]

/-- C10 counterexample: on iOS, `cancel()` leaves `fileHandle` set (only
closed), so a subsequent `write` does not take the silent no-op path: under
the documented FileHandle semantics it raises, and under a hypothetical
non-raising semantics it still increments the running sample count from 0 to
100 - in neither case is it a silent no-op. -/
theorem C10_counterexample :
    ((IOS.WAVFileWriter.create.cancel false false).1.write 100 true).2 = true ∧
    ((IOS.WAVFileWriter.create.cancel false false).1.write 100 false).1.totalSamplesWritten
      = 100 ∧
    (IOS.WAVFileWriter.create.cancel false false).1.totalSamplesWritten = 0 := by
  decide

/-- C10 (amended): after `finalize()` on either platform, and after
`cancel()` on Android, every subsequent write is a silent no-op (the
Android stream is nulled and the iOS handle is nil); but after `cancel()` on
iOS the handle remains present in the closed state, so the no-op guard does
not trigger. -/
theorem C10_write_after_release :
    (∀ (w : WAVFileWriter) (samples : List Int) (count : Nat),
      w.streamOpen = false → w.write samples count = w) ∧
    (∀ (w : IOS.WAVFileWriter) (count : Nat) (b : Bool),
      w.handle = IOS.HandleState.absent → w.write count b = (w, false)) ∧
    (∀ (w w' : WAVFileWriter) (res : RecordingResult),
      w.finalize = some (w', res) → w'.streamOpen = false) ∧
    (∀ (w w' : IOS.WAVFileWriter),
      w.finalizeHandle = some w' → w'.handle = IOS.HandleState.absent) ∧
    (∀ (w : IOS.WAVFileWriter) (cf rf : Bool),
      w.handle = IOS.HandleState.openH →
      ((w.cancel cf rf).1).handle = IOS.HandleState.closedH) := by
  refine ⟨?_, ?_, ?_, ?_, ?_⟩
  · intro w samples count h
    simp [WAVFileWriter.write, h]
  · intro w count b h
    obtain ⟨hd, ts, bc, fe⟩ := w
    simp only at h
    subst h
    rfl
  · intro w w' res h
    unfold WAVFileWriter.finalize at h
    by_cases hs : w.streamOpen
    · rw [if_pos hs] at h
      simp only [Option.some.injEq, Prod.mk.injEq] at h
      obtain ⟨h1, h2⟩ := h
      rw [← h1]
    · rw [if_neg hs] at h
      cases h
  · intro w w' h
    obtain ⟨hd, ts, bc, fe⟩ := w
    cases hd with
    | absent => cases h
    | openH =>
      simp only [IOS.WAVFileWriter.finalizeHandle, Option.some.injEq] at h
      rw [← h]
    | closedH => cases h
  · intro w cf rf h
    simp [IOS.WAVFileWriter.cancel, h]

/-- Witness for `C10_write_after_release` at concrete writers. -/
theorem C10_write_after_release_witness :
    ({ sampleRate := 8000, channels := 1, streamOpen := false, totalSamplesWritten := 5,
       fileExists := true, fileBytes := [] } : WAVFileWriter).write [9] 1 =
      { sampleRate := 8000, channels := 1, streamOpen := false, totalSamplesWritten := 5,
        fileExists := true, fileBytes := [] } ∧
    ({ handle := IOS.HandleState.absent, totalSamplesWritten := 3, fileByteCount := 50,
       fileExists := true } : IOS.WAVFileWriter).write 7 true =
      ({ handle := IOS.HandleState.absent, totalSamplesWritten := 3, fileByteCount := 50,
         fileExists := true }, false) ∧
    ((IOS.WAVFileWriter.create).cancel false false).1.handle =
      IOS.HandleState.closedH :=
  ⟨C10_write_after_release.1 _ [9] 1 rfl,
   C10_write_after_release.2.1 _ 7 true rfl,
   C10_write_after_release.2.2.2.2 _ false false rfl⟩

end AudioRec
